import Mathlib

/-
Verification of the error-classification layer in
`banking/klarna_kosma_integration/exception_handler.py`.

The Python module is embedded shallowly:

* JSON values (the payloads handled by the classifier) become the
  inductive type `JsonVal`; Python dictionary access with a default
  (`d.get(k, dflt)`) becomes `pyGet`, which fails with an
  `AttributeError` when the receiver is not a dictionary, exactly as
  Python does.
* The observable side effects (`frappe.log_error`, `frappe.db.set_value`,
  `frappe.db.commit`, `frappe.throw`, a bare `raise`) become `Event`s
  collected in a trace, and control flow (normal return, a raised
  `BankingError`, re-raising the original exception, or an uncaught
  Python-level error) becomes the `Halt` type.  A computation is a pair
  of the emitted trace and its outcome (`M`), sequenced by `mSeq`, which
  short-circuits on any raise — mirroring Python's exception semantics.
* Each method of `ExceptionHandler` becomes a function of the same name.
-/

set_option autoImplicit false

namespace BankingVerify

/-- A JSON value, as produced by `response.json()` / `json.loads`.
Objects are association lists with distinct keys (a Python `dict`);
numbers are modelled as integers (no claim involves floats). -/
inductive JsonVal where
  | null
  | bool (b : Bool)
  | num (n : Int)
  | str (s : String)
  | arr (xs : List JsonVal)
  | obj (fields : List (String × JsonVal))
  deriving Repr

/-- Python truthiness (`bool(v)`) of a JSON value: `None`, `False`, `0`,
`""`, `[]` and `{}` (written here as an empty field list) are falsy. -/
def truthy : JsonVal → Bool
  | .null => false
  | .bool b => b
  | .num n => n != 0
  | .str s => s != ""
  | .arr xs => !xs.isEmpty
  | .obj fs => !fs.isEmpty

/-- Lookup in a JSON object's field list with a default:
`fields.get(k, dflt)` on a Python dict. -/
def objGetD (fs : List (String × JsonVal)) (k : String) (dflt : JsonVal) : JsonVal :=
  match fs.find? (fun p => p.1 = k) with
  | some p => p.2
  | none => dflt

/-- `k in d` for a Python dict. -/
def objHasKey (fs : List (String × JsonVal)) (k : String) : Bool :=
  fs.any (fun p => p.1 = k)

/-- Python `v.get(k, dflt)`: defaulting lookup on a dictionary; on any
non-dictionary receiver Python raises an `AttributeError` (strings,
`None`, numbers and lists have no `.get` method). -/
def pyGet (v : JsonVal) (k : String) (dflt : JsonVal) : Except String JsonVal :=
  match v with
  | .obj fs => .ok (objGetD fs k dflt)
  | _ => .error "AttributeError"

/-- Substring containment, `pat in hay` for Python strings: `pat`
occurs contiguously in `hay`. -/
def strContains (hay pat : String) : Bool :=
  decide (List.IsInfix pat.toList hay.toList)

/-- Python `v == k` for a string `k`: only a string value can compare
equal to a string. -/
def jsonEqStr (v : JsonVal) (k : String) : Bool :=
  match v with
  | .str s => s = k
  | _ => false

/-- Python `k in v` for a string key `k`: key membership on a dict,
substring test on a string, element equality on a list; a `TypeError`
on non-container values. -/
def pyIn (k : String) (v : JsonVal) : Except String Bool :=
  match v with
  | .obj fs => .ok (objHasKey fs k)
  | .str s => .ok (strContains s k)
  | .arr xs => .ok (xs.any (fun x => jsonEqStr x k))
  | _ => .error "TypeError"

/-- Python iteration `for x in v`: the elements of a list, the characters
of a string (as one-character strings), the keys of a dict; a `TypeError`
on non-iterable values. -/
def pyIter (v : JsonVal) : Except String (List JsonVal) :=
  match v with
  | .arr xs => .ok xs
  | .str s => .ok (s.toList.map (fun c => .str c.toString))
  | .obj fs => .ok (fs.map (fun p => .str p.1))
  | _ => .error "TypeError"

/-- Python `repr(v)` of a JSON value (used by `str` on containers). -/
def pyRepr : JsonVal → String
  | .null => "None"
  | .bool true => "True"
  | .bool false => "False"
  | .num n => toString n
  | .str s => "'" ++ s ++ "'"
  | .arr xs => "[" ++ String.intercalate ", " (xs.attach.map (fun x => pyRepr x.1)) ++ "]"
  | .obj fs =>
      "\x7b" ++
        String.intercalate ", "
          (fs.attach.map (fun p => "'" ++ p.1.1 ++ "': " ++ pyRepr p.1.2)) ++
        "\x7d"
decreasing_by
  · simp_wf
    have := List.sizeOf_lt_of_mem x.2
    omega
  · simp_wf
    obtain ⟨⟨a, b⟩, hmem⟩ := p
    have := List.sizeOf_lt_of_mem hmem
    simp at this ⊢
    omega

/-- Python `str(v)`, as interpolated by an f-string: a string is used as
is, any other value through `repr`-style rendering. -/
def pyStr (v : JsonVal) : String :=
  match v with
  | .str s => s
  | _ => pyRepr v

/-- An observable side effect of the classifier, in the order performed. -/
inductive Event where
  /-- `frappe.log_error(title=..., message=...)` with a raw text body
  (`response.content`). -/
  | logError (title msg : String)
  /-- `frappe.log_error(title=..., message=json.dumps(data))`: the logged
  payload is recorded as the serialized JSON value itself. -/
  | logJsonDump (title : String) (data : JsonVal)
  /-- `frappe.log_error(title=..., message=frappe.get_traceback())`: the
  stack trace of the failure being handled is logged. -/
  | logTraceback (title : String)
  /-- `frappe.db.set_value(doctype, docname, field, value)`. -/
  | dbSetValue (doctype docname field : String) (value : JsonVal)
  /-- `frappe.db.commit()`. -/
  | dbCommit
  /-- `frappe.throw(title=..., msg=..., exc=BankingError)`: the point at
  which the `BankingError` is raised. -/
  | throwEv (title : String) (msg : JsonVal)
  /-- a bare `raise`: the original exception is re-raised here. -/
  | reraiseEv

/-- The part of an HTTP response the classifier consults:
`requests.Response` with `.status_code`, `.headers`, `.json()` and
`.content`.  `jsonBody = none` models a body that is not valid JSON, so
that `.json()` raises. -/
structure Response where
  status_code : Int
  headers : List (String × String)
  jsonBody : Option JsonVal
  content : String

/-- The caught failure handed to `ExceptionHandler`: either a
`requests.exceptions.HTTPError` — whose `.response` attribute may be
`None` — or any other exception (identified by an opaque tag). -/
inductive Exc where
  | httpError (response : Option Response)
  | other (tag : String)

/-- How an invocation of the classifier stops early. -/
inductive Halt where
  /-- a `BankingError` raised through `frappe.throw`. -/
  | thrown (title : String) (msg : JsonVal)
  /-- the original exception re-raised by a bare `raise`. -/
  | reraised (e : Exc)
  /-- an uncaught Python-level exception (`AttributeError`, `TypeError`,
  a JSON decode error, ...) escaping the classifier. -/
  | pyError (kind : String)

/-- A classifier computation: the trace of side effects it emits,
together with its outcome — a value on normal completion, or a `Halt`. -/
def M (α : Type) : Type := List Event × Except Halt α

/-- Normal completion with no side effect. -/
def mPure {α : Type} (a : α) : M α := ([], .ok a)

/-- Sequencing: Python's `;`.  A raise in the first part skips the
second entirely. -/
def mSeq {α β : Type} (x : M α) (f : α → M β) : M β :=
  match x with
  | (tr, .ok a) => (tr ++ (f a).1, (f a).2)
  | (tr, .error h) => (tr, .error h)

/-- Emit one side effect. -/
def emit (e : Event) : M Unit := ([e], .ok ())

/-- `frappe.throw(title=t, msg=m, exc=BankingError)`. -/
def mThrow (t : String) (m : JsonVal) : M Unit :=
  ([.throwEv t m], .error (.thrown t m))

/-- A bare `raise` re-raising the exception `e` being handled. -/
def mReraise (e : Exc) : M Unit :=
  ([.reraiseEv], .error (.reraised e))

/-- An uncaught Python-level exception aborts the computation. -/
def mPy {α : Type} (kind : String) : M α := ([], .error (.pyError kind))

/-- Lift a fallible pure Python expression (no side effects) into `M`;
its failure escapes as an uncaught Python exception. -/
def liftExc {α : Type} (x : Except String α) : M α :=
  ([], x.mapError Halt.pyError)

/-! ### String constants of the module (after `_`-localization, which is
the identity in the source language). -/

def bankingErrorTitle : String := "Banking Error"

def genericRetryMsg : String := "Something went wrong. Please retry in a while."

def authInvalidCredsMsg : String := "Authentication error due to invalid credentials."

def authzInvalidAccessMsg : String := "Authorization error due to invalid access."

def serverErroredMsg : String := "The server has errored. Please retry in some time."

def adminLeadInMsg : String := "Banking Action has failed due to the following error(s):"

/-- The instruction appended for `CONSENT.RESOURCE_NOT_GRANTED`:
`_("Please go to Banking Settings and click on \x7b0\x7d.").format(frappe.bold(_("Link Bank and Accounts")))`,
where `frappe.bold` wraps its argument in `<b>` tags. -/
def consentInfoMsg : String :=
  "Please go to Banking Settings and click on <b>Link Bank and Accounts</b>."

/-! ### The methods of `ExceptionHandler` -/

/-- `ExceptionHandler.set_in_account`: writes `error_message` on the
Bank Account record and commits, a no-op when no (or a falsy, i.e.
empty) account reference was supplied. -/
def set_in_account (account : Option String) (v : JsonVal) : M Unit :=
  match account with
  | none => mPure ()
  | some a =>
      if a = "" then mPure ()
      else
        mSeq (emit (.dbSetValue "Bank Account" a "error_message" v)) fun _ =>
          emit .dbCommit

/-- The trace `set_in_account` emits, for stating theorems. -/
def setTrace (account : Option String) (v : JsonVal) : List Event :=
  match account with
  | none => []
  | some a =>
      if a = "" then []
      else [.dbSetValue "Bank Account" a "error_message" v, .dbCommit]

/-- `response.json()`: the parsed body, or an uncaught decode error. -/
def respJson (r : Response) : M JsonVal :=
  match r.jsonBody with
  | some j => mPure j
  | none => mPy "JSONDecodeError"

/-- `response.json()` on an optional response: attribute access on
`None` is an uncaught `AttributeError`. -/
def respJsonOpt (ro : Option Response) : M JsonVal :=
  match ro with
  | none => mPy "AttributeError"
  | some r => respJson r

/-- ASCII lower-casing of a header name (character by character). -/
def lowerStr (s : String) : String :=
  String.mk (s.toList.map Char.toLower)

/-- The `Content-Type` header, `response.headers.get("Content-Type", "")`
(header names compare case-insensitively in `requests`). -/
def headerContentType (r : Response) : String :=
  match r.headers.find? (fun p => lowerStr p.1 = "content-type") with
  | some p => p.2
  | none => ""

/-- `ExceptionHandler.handle_auth_error` (source lines 37-49):
on status 401, log the raw body, persist and raise the fixed
invalid-credentials message. -/
def handle_auth_error (account : Option String) (ro : Option Response) : M Unit :=
  match ro with
  | none => mPy "AttributeError"
  | some r =>
      if r.status_code = 401 then
        mSeq (emit (.logError bankingErrorTitle r.content)) fun _ =>
        mSeq (set_in_account account (.str authInvalidCredsMsg)) fun _ =>
        mThrow bankingErrorTitle (.str authInvalidCredsMsg)
      else mPure ()

/-- `ExceptionHandler.handle_authorization_error` (source lines 51-62):
on status 403, log the raw body; the message is the body's `message`
field when that is a string, else the fixed invalid-access string;
persist and raise it. -/
def handle_authorization_error (account : Option String) (ro : Option Response) : M Unit :=
  match ro with
  | none => mPy "AttributeError"
  | some r =>
      if r.status_code = 403 then
        mSeq (emit (.logError bankingErrorTitle r.content)) fun _ =>
        mSeq (respJson r) fun j =>
        mSeq (liftExc (pyGet j "message" (.obj []))) fun content =>
        let message : JsonVal :=
          match content with
          | .str s => .str s
          | _ => .str authzInvalidAccessMsg
        mSeq (set_in_account account message) fun _ =>
        mThrow bankingErrorTitle message
      else mPure ()

/-- `ExceptionHandler.handle_txt_html_error` (source lines 64-79):
when the `Content-Type` header does not contain `application/json`,
log the raw body, persist and raise the fixed generic retry message. -/
def handle_txt_html_error (account : Option String) (ro : Option Response) : M Unit :=
  match ro with
  | none => mPy "AttributeError"
  | some r =>
      if strContains (headerContentType r) "application/json" then mPure ()
      else
        mSeq (emit (.logError bankingErrorTitle r.content)) fun _ =>
        mSeq (set_in_account account (.str genericRetryMsg)) fun _ =>
        mThrow bankingErrorTitle (.str genericRetryMsg)

/-- `ExceptionHandler.handle_frappe_server_error` (source lines 81-91):
when the already-extracted `message` content is falsy and the body has
an `exc_type` key, log the raw body and raise the body's `exception`
field if truthy, else the fixed server-errored message.  The `and` of
the guard short-circuits exactly as in Python. -/
def handle_frappe_server_error (account : Option String) (content : JsonVal)
    (ro : Option Response) : M Unit :=
  match ro with
  | none => mPy "AttributeError"
  | some r =>
      mSeq (respJson r) fun response_data =>
      if truthy content then mPure ()
      else
        mSeq (liftExc (pyIn "exc_type" response_data)) fun hasExc =>
        if hasExc then
          mSeq (emit (.logError bankingErrorTitle r.content)) fun _ =>
          mSeq (liftExc (pyGet response_data "exception" .null)) fun exv =>
          let message : JsonVal := if truthy exv then exv else .str serverErroredMsg
          mSeq (set_in_account account message) fun _ =>
          mThrow bankingErrorTitle message
        else mPure ()

/-- `ExceptionHandler.get_msg` (source lines 112-122): fetch the error's
`message`; when its `code` equals `CONSENT.RESOURCE_NOT_GRANTED`, append
the fixed instruction — which is a Python `TypeError` unless the message
is a string. -/
def get_msg (error : JsonVal) : Except String JsonVal := do
  let msg ← pyGet error "message" .null
  let code ← pyGet error "code" .null
  if jsonEqStr code "CONSENT.RESOURCE_NOT_GRANTED" then
    match msg with
    | .str s => .ok (.str (s ++ " " ++ consentInfoMsg))
    | _ => .error "TypeError"
  else .ok msg

/-- One item of the multi-error list:
`f"\x7berr.get('location')\x7d - \x7bself.get_msg(err)\x7d"`. -/
def render_err (err : JsonVal) : Except String String := do
  let loc ← pyGet err "location" .null
  let m ← get_msg err
  .ok (pyStr loc ++ " - " ++ pyStr m)

/-- The list comprehension `[f"..." for err in errors]`, failing as soon
as one item does. -/
def renderList : List JsonVal → Except String (List String)
  | [] => .ok []
  | e :: es => do
      let s ← render_err e
      let rest ← renderList es
      .ok (s :: rest)

/-- `content.get("error", \x7b\x7d) or content.get("data", \x7b\x7d)`:
Python `or` takes the first operand when it is truthy, evaluating the
second only otherwise. -/
def errorDataOf (content : JsonVal) : Except String JsonVal := do
  let e ← pyGet content "error" (.obj [])
  if truthy e then .ok e else pyGet content "data" (.obj [])

/-- `ExceptionHandler.handle_admin_error` (source lines 93-110):
extract `error_data`, always log it as JSON; on a truthy `errors`
build the HTML list message and raise; else on a truthy `message`
raise the augmented single message; else return normally. -/
def handle_admin_error (account : Option String) (content : JsonVal) : M Unit :=
  mSeq (liftExc (errorDataOf content)) fun error_data =>
  mSeq (emit (.logJsonDump bankingErrorTitle error_data)) fun _ =>
  mSeq (liftExc (pyGet error_data "errors" .null)) fun errorsV =>
  if truthy errorsV then
    mSeq (liftExc (pyIter errorsV)) fun items =>
    mSeq (liftExc (renderList items)) fun error_list =>
    let message : JsonVal :=
      .str (adminLeadInMsg ++ "<br><ul><li>" ++
        String.intercalate "</li><li>" error_list ++ "</li></ul>")
    mSeq (set_in_account account message) fun _ =>
    mThrow bankingErrorTitle message
  else
    mSeq (liftExc (pyGet error_data "message" .null)) fun mv =>
    if truthy mv then
      mSeq (liftExc (get_msg error_data)) fun message =>
      mSeq (set_in_account account message) fun _ =>
      mThrow bankingErrorTitle message
    else mPure ()

/-- `ExceptionHandler.handle_error` (source lines 22-35), the entry
point run by `__init__`: a non-`HTTPError` failure writes the generic
message, logs the traceback and re-raises; an `HTTPError` runs the
classification chain in source order. -/
def handle_error (exc : Exc) (account : Option String) : M Unit :=
  match exc with
  | .other tag =>
      mSeq (set_in_account account (.str genericRetryMsg)) fun _ =>
      mSeq (emit (.logTraceback bankingErrorTitle)) fun _ =>
      mReraise (.other tag)
  | .httpError ro =>
      mSeq (handle_auth_error account ro) fun _ =>
      mSeq (handle_authorization_error account ro) fun _ =>
      mSeq (handle_txt_html_error account ro) fun _ =>
      mSeq (respJsonOpt ro) fun j =>
      mSeq (liftExc (pyGet j "message" (.obj []))) fun content =>
      mSeq (handle_frappe_server_error account content ro) fun _ =>
      handle_admin_error account content

/-! ### Derived notions used to state the claims -/

/-- The message the 403 handler chooses from a JSON object body: the
top-level `message` field when it is a plain string, the fixed
invalid-access string otherwise. -/
def authzMessageOf (bs : List (String × JsonVal)) : JsonVal :=
  match objGetD bs "message" (.obj []) with
  | .str s => .str s
  | _ => .str authzInvalidAccessMsg

/-- The message the server-error handler chooses from a JSON object
body: the `exception` field when truthy, the fixed server-errored
string otherwise. -/
def serverMessageOf (bs : List (String × JsonVal)) : JsonVal :=
  if truthy (objGetD bs "exception" .null) then objGetD bs "exception" .null
  else .str serverErroredMsg

/-- Field access on an error item as the admin handler performs it
(defaulting to `None`). -/
def errField (v : JsonVal) (k : String) : JsonVal :=
  match v with
  | .obj fs => objGetD fs k .null
  | _ => .null

/-- The value `get_msg` returns when it succeeds. -/
def getMsgD (err : JsonVal) : JsonVal :=
  match get_msg err with
  | .ok v => v
  | .error _ => .null

/-- One rendered line of the multi-error list:
`location` then `" - "` then the augmented message. -/
def fmtErrLine (err : JsonVal) : String :=
  pyStr (errField err "location") ++ " - " ++ pyStr (getMsgD err)

/-- Is this event the raising of a `BankingError` (`frappe.throw`)? -/
def isThrowEv : Event → Bool
  | .throwEv _ _ => true
  | _ => false

/-- Is this event any raise (a `BankingError` or a bare `raise`)? -/
def isRaiseEv : Event → Bool
  | .throwEv _ _ => true
  | .reraiseEv => true
  | _ => false

/-- A trace with no raise event in it. -/
def RaiseFree (tr : List Event) : Prop := tr.filter isRaiseEv = []

/-- A trace agrees with an outcome when a normal or
Python-level-error outcome has a raise-free trace, and a thrown or
re-raised outcome has exactly its own raise event, last. -/
def WfP {α : Type} (tr : List Event) : Except Halt α → Prop
  | .ok _ => RaiseFree tr
  | .error (.thrown t m) => ∃ pre, tr = pre ++ [Event.throwEv t m] ∧ RaiseFree pre
  | .error (.reraised _) => ∃ pre, tr = pre ++ [Event.reraiseEv] ∧ RaiseFree pre
  | .error (.pyError _) => RaiseFree tr

/-- A computation is well formed when its trace agrees with its
outcome. -/
def Wf {α : Type} (x : M α) : Prop := WfP x.1 x.2

/-! ### Basic evaluation lemmas -/

@[simp] theorem mSeq_ok {α β : Type} (tr : List Event) (a : α) (f : α → M β) :
    mSeq (tr, .ok a) f = (tr ++ (f a).1, (f a).2) := rfl

@[simp] theorem mSeq_error {α β : Type} (tr : List Event) (h : Halt) (f : α → M β) :
    mSeq (tr, .error h) f = (tr, .error h) := rfl

@[simp] theorem mPure_def {α : Type} (a : α) : mPure a = ([], .ok a) := rfl

@[simp] theorem emit_def (e : Event) : emit e = ([e], .ok ()) := rfl

@[simp] theorem liftExc_ok {α : Type} (a : α) :
    liftExc (.ok a) = (([], .ok a) : M α) := rfl

@[simp] theorem liftExc_error {α : Type} (s : String) :
    liftExc (.error s) = (([], .error (.pyError s)) : M α) := rfl

theorem set_in_account_eq (account : Option String) (v : JsonVal) :
    set_in_account account v = (setTrace account v, .ok ()) := by
  cases account with
  | none => rfl
  | some a =>
      by_cases h : a = "" <;>
        simp [set_in_account, setTrace, h, mSeq, emit, mPure]

/-! ### Evaluation lemmas for the handler chain -/

theorem auth_skip (account : Option String) (r : Response) (h : ¬ r.status_code = 401) :
    handle_auth_error account (some r) = mPure () := by
  simp [handle_auth_error, h]

theorem authz_skip (account : Option String) (r : Response) (h : ¬ r.status_code = 403) :
    handle_authorization_error account (some r) = mPure () := by
  simp [handle_authorization_error, h]

theorem txt_html_skip (account : Option String) (r : Response)
    (h : strContains (headerContentType r) "application/json" = true) :
    handle_txt_html_error account (some r) = mPure () := by
  simp [handle_txt_html_error, h]

/-- On status 403 with a JSON object body the authorization handler
logs the raw body, persists and raises `authzMessageOf`. -/
theorem authz_fire (account : Option String) (r : Response) (bs : List (String × JsonVal))
    (hst : r.status_code = 403) (hb : r.jsonBody = some (.obj bs)) :
    handle_authorization_error account (some r) =
      (Event.logError bankingErrorTitle r.content ::
        (setTrace account (authzMessageOf bs) ++
          [Event.throwEv bankingErrorTitle (authzMessageOf bs)]),
       .error (.thrown bankingErrorTitle (authzMessageOf bs))) := by
  simp only [handle_authorization_error, hst, if_pos, respJson, hb, mPure, pyGet,
    liftExc_ok, set_in_account_eq, mThrow, mSeq_ok, emit_def, authzMessageOf]
  simp [mSeq]

/-- On status 401 the auth handler logs the raw body, persists and
raises the fixed invalid-credentials message. -/
theorem auth_fire (account : Option String) (r : Response) (hst : r.status_code = 401) :
    handle_auth_error account (some r) =
      (Event.logError bankingErrorTitle r.content ::
        (setTrace account (.str authInvalidCredsMsg) ++
          [Event.throwEv bankingErrorTitle (.str authInvalidCredsMsg)]),
       .error (.thrown bankingErrorTitle (.str authInvalidCredsMsg))) := by
  simp [handle_auth_error, hst, set_in_account_eq, mThrow, mSeq]

/-- When the `Content-Type` header does not contain `application/json`,
the text/html handler logs the raw body, persists and raises the fixed
generic retry message. -/
theorem txt_html_fire (account : Option String) (r : Response)
    (h : strContains (headerContentType r) "application/json" = false) :
    handle_txt_html_error account (some r) =
      (Event.logError bankingErrorTitle r.content ::
        (setTrace account (.str genericRetryMsg) ++
          [Event.throwEv bankingErrorTitle (.str genericRetryMsg)]),
       .error (.thrown bankingErrorTitle (.str genericRetryMsg))) := by
  simp [handle_txt_html_error, h, set_in_account_eq, mThrow, mSeq]

/-- The server-error handler does nothing when the extracted content is
truthy. -/
theorem server_skip_truthy (account : Option String) (content : JsonVal) (r : Response)
    (j : JsonVal) (hb : r.jsonBody = some j) (h : truthy content = true) :
    handle_frappe_server_error account content (some r) = mPure () := by
  simp [handle_frappe_server_error, respJson, hb, h, mSeq, mPure]

/-- The server-error handler does nothing when the body (a JSON object)
has no `exc_type` key. -/
theorem server_skip_noexc (account : Option String) (content : JsonVal) (r : Response)
    (bs : List (String × JsonVal)) (hb : r.jsonBody = some (.obj bs))
    (h : objHasKey bs "exc_type" = false) :
    handle_frappe_server_error account content (some r) = mPure () := by
  by_cases hc : truthy content
  · exact server_skip_truthy account content r _ hb hc
  · simp [handle_frappe_server_error, respJson, hb, hc, pyIn, h, mSeq, mPure]

/-- On a falsy content with an `exc_type` key present, the server-error
handler logs the raw body, persists and raises `serverMessageOf`. -/
theorem server_fire (account : Option String) (content : JsonVal) (r : Response)
    (bs : List (String × JsonVal)) (hb : r.jsonBody = some (.obj bs))
    (hc : truthy content = false) (h : objHasKey bs "exc_type" = true) :
    handle_frappe_server_error account content (some r) =
      (Event.logError bankingErrorTitle r.content ::
        (setTrace account (serverMessageOf bs) ++
          [Event.throwEv bankingErrorTitle (serverMessageOf bs)]),
       .error (.thrown bankingErrorTitle (serverMessageOf bs))) := by
  simp only [handle_frappe_server_error, respJson, hb, hc, pyIn, h, mSeq_ok, mPure_def,
    liftExc_ok, emit_def, set_in_account_eq, mThrow, pyGet, serverMessageOf,
    Bool.false_eq_true, if_false, if_true]
  simp [mSeq]

/-! ### Well-formedness: every invocation raises at most once, last -/

theorem raiseFree_append (t1 t2 : List Event) :
    RaiseFree (t1 ++ t2) ↔ RaiseFree t1 ∧ RaiseFree t2 := by
  simp [RaiseFree, List.filter_append]

@[simp] theorem wfP_ok {α : Type} (tr : List Event) (a : α) :
    WfP tr (.ok a) ↔ RaiseFree tr := Iff.rfl

@[simp] theorem wfP_thrown {α : Type} (tr : List Event) (t : String) (m : JsonVal) :
    WfP (α := α) tr (.error (.thrown t m)) ↔
      ∃ pre, tr = pre ++ [Event.throwEv t m] ∧ RaiseFree pre := Iff.rfl

@[simp] theorem wfP_reraised {α : Type} (tr : List Event) (e : Exc) :
    WfP (α := α) tr (.error (.reraised e)) ↔
      ∃ pre, tr = pre ++ [Event.reraiseEv] ∧ RaiseFree pre := Iff.rfl

@[simp] theorem wfP_pyError {α : Type} (tr : List Event) (s : String) :
    WfP (α := α) tr (.error (.pyError s)) ↔ RaiseFree tr := Iff.rfl

theorem wf_mPure {α : Type} (a : α) : Wf (mPure a) := by
  simp [Wf, mPure, RaiseFree]

theorem wf_emit (e : Event) (h : isRaiseEv e = false) : Wf (emit e) := by
  simp [Wf, emit, RaiseFree, h]

theorem wf_liftExc {α : Type} (x : Except String α) : Wf (liftExc x) := by
  cases x <;> simp [Wf, liftExc, Except.mapError, RaiseFree]

theorem wf_mPy {α : Type} (k : String) : Wf (mPy (α := α) k) := by
  simp [Wf, mPy, RaiseFree]

theorem wf_mThrow (t : String) (m : JsonVal) : Wf (mThrow t m) := by
  exact ⟨[], rfl, rfl⟩

theorem wf_mReraise (e : Exc) : Wf (mReraise e) := by
  exact ⟨[], rfl, rfl⟩

theorem wf_mSeq {α β : Type} (x : M α) (f : α → M β)
    (hx : Wf x) (hf : ∀ a, Wf (f a)) : Wf (mSeq x f) := by
  obtain ⟨tr, r⟩ := x
  cases r with
  | error h => cases h <;> exact hx
  | ok a =>
      have hfa := hf a
      rw [Wf] at hx hfa ⊢
      rw [mSeq_ok]
      cases h2 : (f a).2 with
      | ok b =>
          rw [h2] at hfa
          exact (raiseFree_append _ _).mpr ⟨hx, hfa⟩
      | error h =>
          rw [h2] at hfa
          cases h with
          | thrown t m =>
              obtain ⟨pre, hpre, hrf⟩ := hfa
              exact ⟨tr ++ pre, by rw [hpre, List.append_assoc],
                (raiseFree_append _ _).mpr ⟨hx, hrf⟩⟩
          | reraised e =>
              obtain ⟨pre, hpre, hrf⟩ := hfa
              exact ⟨tr ++ pre, by rw [hpre, List.append_assoc],
                (raiseFree_append _ _).mpr ⟨hx, hrf⟩⟩
          | pyError s =>
              exact (raiseFree_append _ _).mpr ⟨hx, hfa⟩

theorem wf_set_in_account (account : Option String) (v : JsonVal) :
    Wf (set_in_account account v) := by
  rw [Wf, set_in_account_eq]
  cases account with
  | none => rfl
  | some a =>
      by_cases h : a = "" <;> simp [setTrace, h, RaiseFree, isRaiseEv]

theorem wf_respJson (r : Response) : Wf (respJson r) := by
  rw [respJson]
  cases r.jsonBody with
  | none => exact wf_mPy _
  | some j => exact wf_mPure j

theorem wf_respJsonOpt (ro : Option Response) : Wf (respJsonOpt ro) := by
  cases ro with
  | none => exact wf_mPy _
  | some r => exact wf_respJson r

theorem wf_handle_auth_error (account : Option String) (ro : Option Response) :
    Wf (handle_auth_error account ro) := by
  cases ro with
  | none => exact wf_mPy _
  | some r =>
      rw [handle_auth_error]
      split
      · exact wf_mSeq _ _ (wf_emit _ rfl) fun _ =>
          wf_mSeq _ _ (wf_set_in_account _ _) fun _ => wf_mThrow _ _
      · exact wf_mPure ()

theorem wf_handle_authorization_error (account : Option String) (ro : Option Response) :
    Wf (handle_authorization_error account ro) := by
  cases ro with
  | none => exact wf_mPy _
  | some r =>
      rw [handle_authorization_error]
      split
      · exact wf_mSeq _ _ (wf_emit _ rfl) fun _ =>
          wf_mSeq _ _ (wf_respJson r) fun j =>
          wf_mSeq _ _ (wf_liftExc _) fun content =>
          wf_mSeq _ _ (wf_set_in_account _ _) fun _ => wf_mThrow _ _
      · exact wf_mPure ()

theorem wf_handle_txt_html_error (account : Option String) (ro : Option Response) :
    Wf (handle_txt_html_error account ro) := by
  cases ro with
  | none => exact wf_mPy _
  | some r =>
      rw [handle_txt_html_error]
      split
      · exact wf_mPure ()
      · exact wf_mSeq _ _ (wf_emit _ rfl) fun _ =>
          wf_mSeq _ _ (wf_set_in_account _ _) fun _ => wf_mThrow _ _

theorem wf_handle_frappe_server_error (account : Option String) (content : JsonVal)
    (ro : Option Response) : Wf (handle_frappe_server_error account content ro) := by
  cases ro with
  | none => exact wf_mPy _
  | some r =>
      rw [handle_frappe_server_error]
      refine wf_mSeq _ _ (wf_respJson r) fun response_data => ?_
      split
      · exact wf_mPure ()
      · refine wf_mSeq _ _ (wf_liftExc _) fun hasExc => ?_
        split
        · exact wf_mSeq _ _ (wf_emit _ rfl) fun _ =>
            wf_mSeq _ _ (wf_liftExc _) fun exv =>
            wf_mSeq _ _ (wf_set_in_account _ _) fun _ => wf_mThrow _ _
        · exact wf_mPure ()

theorem wf_handle_admin_error (account : Option String) (content : JsonVal) :
    Wf (handle_admin_error account content) := by
  rw [handle_admin_error]
  refine wf_mSeq _ _ (wf_liftExc _) fun error_data => ?_
  refine wf_mSeq _ _ (wf_emit _ rfl) fun _ => ?_
  refine wf_mSeq _ _ (wf_liftExc _) fun errorsV => ?_
  split
  · exact wf_mSeq _ _ (wf_liftExc _) fun items =>
      wf_mSeq _ _ (wf_liftExc _) fun error_list =>
      wf_mSeq _ _ (wf_set_in_account _ _) fun _ => wf_mThrow _ _
  · refine wf_mSeq _ _ (wf_liftExc _) fun mv => ?_
    split
    · exact wf_mSeq _ _ (wf_liftExc _) fun message =>
        wf_mSeq _ _ (wf_set_in_account _ _) fun _ => wf_mThrow _ _
    · exact wf_mPure ()

theorem wf_handle_error (exc : Exc) (account : Option String) :
    Wf (handle_error exc account) := by
  cases exc with
  | other tag =>
      rw [handle_error]
      exact wf_mSeq _ _ (wf_set_in_account _ _) fun _ =>
        wf_mSeq _ _ (wf_emit _ rfl) fun _ => wf_mReraise _
  | httpError ro =>
      rw [handle_error]
      exact wf_mSeq _ _ (wf_handle_auth_error account ro) fun _ =>
        wf_mSeq _ _ (wf_handle_authorization_error account ro) fun _ =>
        wf_mSeq _ _ (wf_handle_txt_html_error account ro) fun _ =>
        wf_mSeq _ _ (wf_respJsonOpt ro) fun j =>
        wf_mSeq _ _ (wf_liftExc _) fun content =>
        wf_mSeq _ _ (wf_handle_frappe_server_error account content ro) fun _ =>
        wf_handle_admin_error account content

theorem throw_is_raise (e : Event) (h : isThrowEv e = true) : isRaiseEv e = true := by
  cases e <;> simp [isThrowEv, isRaiseEv] at h ⊢

theorem filter_throw_nil (tr : List Event) (h : tr.filter isRaiseEv = []) :
    tr.filter isThrowEv = [] := by
  induction tr with
  | nil => rfl
  | cons e es ih =>
      by_cases he : isRaiseEv e = true
      · simp [List.filter_cons, he] at h
      · have ht : isThrowEv e = false := by
          cases hh : isThrowEv e
          · rfl
          · exact absurd (throw_is_raise e hh) he
        simp only [Bool.not_eq_true] at he
        simp only [List.filter_cons, he, Bool.false_eq_true, if_false] at h
        simp [List.filter_cons, ht, ih h]

/-! ### The claims -/

/-- Claim C5: for every HTTP failure with response status 403 (and a
JSON object body), the classifier logs the raw response body and raises
a `BankingError` whose message is the body's top-level `message` field
when that field is a plain string and the fixed invalid-access string
otherwise; the chosen message is also persisted to the account when one
was supplied. -/
theorem claim5_forbidden (r : Response) (account : Option String)
    (bs : List (String × JsonVal))
    (hst : r.status_code = 403) (hb : r.jsonBody = some (.obj bs)) :
    handle_error (.httpError (some r)) account =
      (Event.logError bankingErrorTitle r.content ::
        (setTrace account (authzMessageOf bs) ++
          [Event.throwEv bankingErrorTitle (authzMessageOf bs)]),
       .error (.thrown bankingErrorTitle (authzMessageOf bs))) := by
  have h401 : ¬ r.status_code = 401 := by rw [hst]; decide
  rw [handle_error, auth_skip account r h401, authz_fire account r bs hst hb]
  simp [mSeq, mPure]

/-- Claim C5, witness: body `message: "Custom text"` raises exactly
`"Custom text"` (persisted to account `"ACC"`), and body
`message: (foo: 1)` raises exactly the fixed invalid-access string. -/
theorem claim5_forbidden_witness :
    handle_error (.httpError (some ⟨403, [], some (.obj [("message", .str "Custom text")]), "raw1"⟩))
        (some "ACC") =
      ([.logError bankingErrorTitle "raw1",
        .dbSetValue "Bank Account" "ACC" "error_message" (.str "Custom text"),
        .dbCommit,
        .throwEv bankingErrorTitle (.str "Custom text")],
       .error (.thrown bankingErrorTitle (.str "Custom text")))
    ∧ handle_error (.httpError (some ⟨403, [], some (.obj [("message", .obj [("foo", .num 1)])]), "raw2"⟩))
        none =
      ([.logError bankingErrorTitle "raw2",
        .throwEv bankingErrorTitle (.str authzInvalidAccessMsg)],
       .error (.thrown bankingErrorTitle (.str authzInvalidAccessMsg))) := by
  constructor
  · exact claim5_forbidden ⟨403, [], some (.obj [("message", .str "Custom text")]), "raw1"⟩
      (some "ACC") [("message", .str "Custom text")] rfl rfl
  · exact claim5_forbidden ⟨403, [], some (.obj [("message", .obj [("foo", .num 1)])]), "raw2"⟩
      none [("message", .obj [("foo", .num 1)])] rfl rfl

/-- Claim C10: for every HTTP failure whose status is neither 401 nor
403 and whose headers contain no `Content-Type` key at all, the
classifier behaves exactly like the non-JSON case: it logs the raw
body, persists the fixed generic retry message when an account was
given, and raises a `BankingError` with that message — whatever the
body is, even valid JSON. -/
theorem claim10_missing_content_type (r : Response) (account : Option String)
    (h1 : ¬ r.status_code = 401) (h2 : ¬ r.status_code = 403)
    (h3 : r.headers.find? (fun p => lowerStr p.1 = "content-type") = none) :
    handle_error (.httpError (some r)) account =
      (Event.logError bankingErrorTitle r.content ::
        (setTrace account (.str genericRetryMsg) ++
          [Event.throwEv bankingErrorTitle (.str genericRetryMsg)]),
       .error (.thrown bankingErrorTitle (.str genericRetryMsg))) := by
  have hct : headerContentType r = "" := by simp [headerContentType, h3]
  have hc : strContains (headerContentType r) "application/json" = false := by
    rw [hct]; decide
  rw [handle_error, auth_skip account r h1, authz_skip account r h2,
    txt_html_fire account r hc]
  simp [mSeq, mPure]

/-- Claim C10, witness: a 502 response with no `Content-Type` header
and a valid JSON body is still classified as non-JSON and raises the
generic retry message, persisted to account `"ACC"`. -/
theorem claim10_missing_content_type_witness :
    handle_error (.httpError (some ⟨502, [("X-Request-Id", "7")],
        some (.obj [("message", .str "ignored")]), "bad gateway"⟩)) (some "ACC") =
      ([.logError bankingErrorTitle "bad gateway",
        .dbSetValue "Bank Account" "ACC" "error_message" (.str genericRetryMsg),
        .dbCommit,
        .throwEv bankingErrorTitle (.str genericRetryMsg)],
       .error (.thrown bankingErrorTitle (.str genericRetryMsg))) := by
  exact claim10_missing_content_type
    ⟨502, [("X-Request-Id", "7")], some (.obj [("message", .str "ignored")]), "bad gateway"⟩
    (some "ACC") (by decide) (by decide) (by decide)

/-- Claim C6, counterexample to the claim as stated: in the body
`message: null, exc_type: "SomeError", exception: ""` the `exception`
field IS present (with value `""`), yet the raised message is the fixed
server-errored string, not that field's value — presence alone does not
select the field; truthiness does. -/
theorem claim6_server_error_counterexample :
    handle_error (.httpError (some ⟨500, [("Content-Type", "application/json")],
        some (.obj [("message", .null), ("exc_type", .str "SomeError"),
          ("exception", .str "")]), "rawbody"⟩)) none =
      ([.logError bankingErrorTitle "rawbody",
        .throwEv bankingErrorTitle (.str serverErroredMsg)],
       .error (.thrown bankingErrorTitle (.str serverErroredMsg)))
    ∧ objGetD [("message", JsonVal.null), ("exc_type", JsonVal.str "SomeError"),
        ("exception", JsonVal.str "")] "exception" .null = .str ""
    ∧ serverErroredMsg ≠ "" := by
  refine ⟨rfl, rfl, ?_⟩
  decide

/-- Claim C6 (amended): for every JSON-Content-Type response with
status other than 401/403 whose body (a JSON object) has a falsy
`message` and an `exc_type` key, the classifier logs the raw body and
raises a `BankingError` whose message is the body's `exception` field
when that field is present and truthy, else the fixed server-errored
retry string; the message is persisted to the account when one was
supplied. -/
theorem claim6_server_error (r : Response) (account : Option String)
    (bs : List (String × JsonVal))
    (h1 : ¬ r.status_code = 401) (h2 : ¬ r.status_code = 403)
    (hct : strContains (headerContentType r) "application/json" = true)
    (hb : r.jsonBody = some (.obj bs))
    (hmsg : truthy (objGetD bs "message" (.obj [])) = false)
    (hexc : objHasKey bs "exc_type" = true) :
    handle_error (.httpError (some r)) account =
      (Event.logError bankingErrorTitle r.content ::
        (setTrace account (serverMessageOf bs) ++
          [Event.throwEv bankingErrorTitle (serverMessageOf bs)]),
       .error (.thrown bankingErrorTitle (serverMessageOf bs))) := by
  rw [handle_error, auth_skip account r h1, authz_skip account r h2,
    txt_html_skip account r hct]
  simp only [respJsonOpt, respJson, hb, mPure_def, mSeq_ok, pyGet, liftExc_ok,
    List.nil_append]
  rw [server_fire account _ r bs hb hmsg hexc]
  simp [mSeq]

/-- Claim C6, witness: the body
`message: null, exc_type: "SomeError", exception: "boom"` raises
exactly the message `"boom"`. -/
theorem claim6_server_error_witness :
    handle_error (.httpError (some ⟨500, [("content-type", "application/json; charset=utf-8")],
        some (.obj [("message", .null), ("exc_type", .str "SomeError"),
          ("exception", .str "boom")]), "rawbody"⟩)) none =
      ([.logError bankingErrorTitle "rawbody",
        .throwEv bankingErrorTitle (.str "boom")],
       .error (.thrown bankingErrorTitle (.str "boom")))
    ∧ serverMessageOf [("message", JsonVal.null), ("exc_type", JsonVal.str "SomeError"),
        ("exception", JsonVal.str "boom")] = .str "boom" := by
  refine ⟨?_, rfl⟩
  exact claim6_server_error
    ⟨500, [("content-type", "application/json; charset=utf-8")],
      some (.obj [("message", .null), ("exc_type", .str "SomeError"),
        ("exception", .str "boom")]), "rawbody"⟩
    none
    [("message", .null), ("exc_type", .str "SomeError"), ("exception", .str "boom")]
    (by decide) (by decide) (by decide) rfl rfl rfl

/-- Claim C2, counterexample to the claim as stated: a 500 response with
JSON Content-Type and body `message: "oops"` — an unrecognized shape
with a plain-string top-level `message` and no `exc_type` — does NOT
complete normally: the dictionary-style lookup `content.get("error", ...)`
is performed on a string and the invocation escapes with an
`AttributeError`. -/
theorem claim2_degrade_counterexample :
    handle_error (.httpError (some ⟨500, [("Content-Type", "application/json")],
        some (.obj [("message", .str "oops")]), "rawbody"⟩)) none =
      ([], .error (.pyError "AttributeError"))
    ∧ (handle_error (.httpError (some ⟨500, [("Content-Type", "application/json")],
        some (.obj [("message", .str "oops")]), "rawbody"⟩)) none).2 ≠ .ok () := by
  refine ⟨rfl, ?_⟩
  intro h
  exact Except.noConfusion h

/-- Claim C2 (amended): for every JSON-Content-Type response with a
status other than 401/403 whose body is a JSON object whose `message`
field is an object (or absent, defaulting to an empty object), when the
shape is unrecognized — the server-error rule does not fire, and the
derived `error_data` is an object with no truthy `errors` and no truthy
`message` — classification completes and returns normally, emitting only
the silent catch-all log of `error_data`: the defaulting accessors make
missing keys harmless.  (A non-object truthy `message`, or a null one
without `exc_type`, instead crashes with an `AttributeError`.) -/
theorem claim2_degrade_gracefully (r : Response) (account : Option String)
    (bs cs eds : List (String × JsonVal))
    (h1 : ¬ r.status_code = 401) (h2 : ¬ r.status_code = 403)
    (hct : strContains (headerContentType r) "application/json" = true)
    (hb : r.jsonBody = some (.obj bs))
    (hmsg : objGetD bs "message" (.obj []) = .obj cs)
    (hserver : truthy (JsonVal.obj cs) = true ∨ objHasKey bs "exc_type" = false)
    (hed : errorDataOf (.obj cs) = .ok (.obj eds))
    (herr : truthy (objGetD eds "errors" .null) = false)
    (hm : truthy (objGetD eds "message" .null) = false) :
    handle_error (.httpError (some r)) account =
      ([Event.logJsonDump bankingErrorTitle (.obj eds)], .ok ()) := by
  rw [handle_error, auth_skip account r h1, authz_skip account r h2,
    txt_html_skip account r hct]
  simp only [respJsonOpt, respJson, hb, mPure_def, mSeq_ok, pyGet, liftExc_ok,
    List.nil_append, hmsg]
  have hserver' : handle_frappe_server_error account (.obj cs) (some r) = mPure () := by
    rcases hserver with h | h
    · exact server_skip_truthy account _ r _ hb h
    · exact server_skip_noexc account _ r bs hb h
  rw [hserver']
  simp only [mPure_def, mSeq_ok, List.nil_append]
  simp [handle_admin_error, hed, herr, hm, pyGet, mSeq, mPure]

/-- Claim C2, witness: a 500 JSON response whose body object has only
unrecognized keys (`message` is an object with a single unknown field)
returns normally with just the catch-all log. -/
theorem claim2_degrade_gracefully_witness :
    handle_error (.httpError (some ⟨500, [("Content-Type", "application/json")],
        some (.obj [("message", .obj [("foo", .num 1)])]), "rawbody"⟩)) (some "ACC") =
      ([Event.logJsonDump bankingErrorTitle (.obj [])], .ok ()) := by
  exact claim2_degrade_gracefully
    ⟨500, [("Content-Type", "application/json")],
      some (.obj [("message", .obj [("foo", .num 1)])]), "rawbody"⟩
    (some "ACC")
    [("message", .obj [("foo", .num 1)])] [("foo", .num 1)] []
    (by decide) (by decide) (by decide) rfl rfl (Or.inl (by decide)) rfl rfl rfl

/-- The trace of the non-HTTP branch: persist, log traceback, re-raise. -/
theorem other_exc_trace (tag : String) (account : Option String) :
    handle_error (.other tag) account =
      (setTrace account (.str genericRetryMsg) ++
        [Event.logTraceback bankingErrorTitle, Event.reraiseEv],
       .error (.reraised (.other tag))) := by
  rw [handle_error, set_in_account_eq]
  simp [mSeq, mReraise]

/-- Claim C3, counterexample to the claim as stated: an
`requests.exceptions.HTTPError` whose `.response` attribute is `None`
is a caught failure that carries no HTTP response, yet the classifier
does not re-raise it: the very first status check dereferences
`None.status_code` and the invocation escapes with an `AttributeError`
instead. -/
theorem claim3_reraise_counterexample :
    handle_error (.httpError none) none = ([], .error (.pyError "AttributeError"))
    ∧ ∀ e : Exc, (handle_error (.httpError none) none).2 ≠ .error (.reraised e) := by
  refine ⟨rfl, ?_⟩
  intro e h
  rw [show (handle_error (.httpError none) none).2 = .error (.pyError "AttributeError") from rfl]
    at h
  exact Halt.noConfusion (Except.error.inj h)

/-- Claim C3 (amended): every caught failure that is not an HTTP-error
object (network error, timeout, any unexpected exception) is re-raised
as the exact same failure object, after the fixed generic retry message
is written to the account (when one was supplied, as a no-op otherwise)
and the full stack trace is logged under the fixed title.  (An
HTTP-error object carrying no response also lacks an HTTP response but
instead escapes with an `AttributeError`.) -/
theorem claim3_reraise_non_http (tag : String) (account : Option String) :
    handle_error (.other tag) account =
      (setTrace account (.str genericRetryMsg) ++
        [Event.logTraceback bankingErrorTitle, Event.reraiseEv],
       .error (.reraised (.other tag))) := by
  exact other_exc_trace tag account

/-- Claim C9, counterexample to the claim as stated: on the envelope
`error: (empty object), data: (message: "from data")` the `error` key is
present, yet its (empty, hence falsy) value is NOT used: `data` is
consulted, its value is logged as the error data, and the classifier
raises `"from data"` taken from the `data` field. -/
theorem claim9_error_data_counterexample :
    errorDataOf (.obj [("error", .obj []), ("data", .obj [("message", .str "from data")])]) =
      .ok (.obj [("message", .str "from data")])
    ∧ errorDataOf (.obj [("error", .obj []), ("data", .obj [("message", .str "from data")])]) ≠
      .ok (.obj [])
    ∧ handle_admin_error none
        (.obj [("error", .obj []), ("data", .obj [("message", .str "from data")])]) =
      ([.logJsonDump bankingErrorTitle (.obj [("message", .str "from data")]),
        .throwEv bankingErrorTitle (.str "from data")],
       .error (.thrown bankingErrorTitle (.str "from data"))) := by
  refine ⟨rfl, ?_, rfl⟩
  intro h
  have h2 := Except.ok.inj h
  have h3 := JsonVal.obj.inj h2
  exact List.noConfusion h3

/-- Claim C9 (amended): whenever the vendor/admin step runs on an
envelope object `content`, the derived `error_data` is the value of
content's `error` field when that value is present AND truthy, else the
value of content's `data` field if present, else empty — so an `error`
key holding a falsy value (such as an empty object) is skipped in
favour of `data`.  The step then always logs exactly that `error_data`
as its first side effect. -/
theorem claim9_error_data (account : Option String) (cs : List (String × JsonVal)) :
    errorDataOf (.obj cs) =
      .ok (if truthy (objGetD cs "error" (.obj [])) then objGetD cs "error" (.obj [])
           else objGetD cs "data" (.obj []))
    ∧ ∃ (tl : List Event) (out : Except Halt Unit),
        handle_admin_error account (.obj cs) =
          (Event.logJsonDump bankingErrorTitle
              (if truthy (objGetD cs "error" (.obj [])) then objGetD cs "error" (.obj [])
               else objGetD cs "data" (.obj [])) :: tl,
           out) := by
  have hed : errorDataOf (.obj cs) =
      .ok (if truthy (objGetD cs "error" (.obj [])) then objGetD cs "error" (.obj [])
           else objGetD cs "data" (.obj [])) := by
    by_cases h : truthy (objGetD cs "error" (.obj [])) = true
    · simp [errorDataOf, pyGet, h, bind, Except.bind, Except.instMonad]
    · simp [errorDataOf, pyGet, h, bind, Except.bind, Except.instMonad]
  refine ⟨hed, ?_⟩
  rw [handle_admin_error, hed]
  simp only [liftExc_ok, mSeq_ok, emit_def, List.nil_append, List.cons_append]
  exact ⟨_, _, rfl⟩

/-- Claim C8, counterexample to the claim as stated: on an error object
with `message` and `code` fields where `code` equals
`CONSENT.RESOURCE_NOT_GRANTED` but `message` is not a string (here the
number 5), `get_msg` does not return the message with the suffix
appended — the concatenation is a Python `TypeError`. -/
theorem claim8_get_msg_counterexample :
    get_msg (.obj [("message", .num 5), ("code", .str "CONSENT.RESOURCE_NOT_GRANTED")]) =
      .error "TypeError"
    ∧ ∀ v : JsonVal,
        get_msg (.obj [("message", .num 5), ("code", .str "CONSENT.RESOURCE_NOT_GRANTED")]) ≠
          .ok v := by
  refine ⟨rfl, ?_⟩
  intro v h
  rw [show get_msg (.obj [("message", .num 5), ("code", .str "CONSENT.RESOURCE_NOT_GRANTED")]) =
    .error "TypeError" from rfl] at h
  exact Except.noConfusion h

/-- Claim C8 (amended): for every error object with `message` and
`code` fields, `get_msg` returns the `message` value unchanged whenever
`code` differs from `CONSENT.RESOURCE_NOT_GRANTED`, and when `code`
equals that string and the message is itself a string it returns the
message with the fixed instructional sentence appended (so the result
contains both the original message and the suffix); a non-string
message under that code is instead a `TypeError`. -/
theorem claim8_get_msg :
    (∀ fs : List (String × JsonVal),
       jsonEqStr (objGetD fs "code" .null) "CONSENT.RESOURCE_NOT_GRANTED" = false →
       get_msg (.obj fs) = .ok (objGetD fs "message" .null))
    ∧ (∀ (fs : List (String × JsonVal)) (s : String),
       objGetD fs "message" .null = .str s →
       jsonEqStr (objGetD fs "code" .null) "CONSENT.RESOURCE_NOT_GRANTED" = true →
       get_msg (.obj fs) = .ok (.str (s ++ " " ++ consentInfoMsg))) := by
  constructor
  · intro fs h
    simp [get_msg, pyGet, h, bind, Except.bind, Except.instMonad]
  · intro fs s hs h
    simp [get_msg, pyGet, hs, h, bind, Except.bind, Except.instMonad]

/-- Claim C8, witness: with `code` not the consent code the message
`"hello"` comes back unchanged; with the consent code the message
`"consent missing"` comes back with the instructional suffix appended. -/
theorem claim8_get_msg_witness :
    get_msg (.obj [("message", .str "hello"), ("code", .str "OTHER.CODE")]) =
      .ok (.str "hello")
    ∧ get_msg (.obj [("message", .str "consent missing"),
        ("code", .str "CONSENT.RESOURCE_NOT_GRANTED")]) =
      .ok (.str ("consent missing" ++ " " ++ consentInfoMsg)) := by
  constructor
  · exact claim8_get_msg.1 [("message", .str "hello"), ("code", .str "OTHER.CODE")] (by decide)
  · exact claim8_get_msg.2 [("message", .str "consent missing"),
      ("code", .str "CONSENT.RESOURCE_NOT_GRANTED")] "consent missing" rfl (by decide)

/-- On an error item that is an object whose `message` field is a
string, `get_msg` succeeds, and it returns exactly `getMsgD`. -/
theorem get_msg_ok_of_str_message (fs : List (String × JsonVal)) (s : String)
    (hs : objGetD fs "message" .null = .str s) :
    get_msg (.obj fs) = .ok (getMsgD (.obj fs)) := by
  by_cases hc : jsonEqStr (objGetD fs "code" .null) "CONSENT.RESOURCE_NOT_GRANTED" = true
  · have h1 : get_msg (.obj fs) = .ok (.str (s ++ " " ++ consentInfoMsg)) := by
      simp [get_msg, pyGet, hs, hc, bind, Except.bind, Except.instMonad]
    rw [h1, getMsgD, h1]
  · have h1 : get_msg (.obj fs) = .ok (.str s) := by
      simp only [Bool.not_eq_true] at hc
      simp [get_msg, pyGet, hs, hc, bind, Except.bind, Except.instMonad]
    rw [h1, getMsgD, h1]

/-- On an error item that is an object whose `message` field is a
string, one line of the multi-error list renders to `fmtErrLine`. -/
theorem render_err_eq (err : JsonVal)
    (h : ∃ (fs : List (String × JsonVal)) (s : String),
      err = .obj fs ∧ objGetD fs "message" .null = .str s) :
    render_err err = .ok (fmtErrLine err) := by
  obtain ⟨fs, s, hfs, hs⟩ := h
  subst hfs
  rw [render_err, get_msg_ok_of_str_message fs s hs]
  simp [pyGet, fmtErrLine, errField, bind, Except.bind, Except.instMonad]

/-- When every item of the `errors` list is an object with a string
`message`, the list comprehension succeeds and renders each item with
`fmtErrLine`, in order. -/
theorem renderList_eq (items : List JsonVal)
    (h : ∀ it ∈ items, ∃ (fs : List (String × JsonVal)) (s : String),
      it = .obj fs ∧ objGetD fs "message" .null = .str s) :
    renderList items = .ok (items.map fmtErrLine) := by
  induction items with
  | nil => rfl
  | cons e es ih =>
      have h1 : render_err e = .ok (fmtErrLine e) :=
        render_err_eq e (h e (List.mem_cons_self e es))
      have h2 : renderList es = .ok (es.map fmtErrLine) :=
        ih (fun it hit => h it (List.mem_cons_of_mem e hit))
      rw [renderList, h1, h2]
      simp [bind, Except.bind, Except.instMonad]

/-- Claim C7: whenever the vendor/admin step's `error_data` holds a
non-empty `errors` list (each item an object with a string `message`),
the classifier raises a `BankingError` whose message is the fixed
lead-in text followed by an HTML list with exactly one item per list
element, in order, each rendered as location, `" - "`, and the item's
message passed through the message-augmentation rule `get_msg`; the
message is also persisted to the account when one was supplied. -/
theorem claim7_multi_error (account : Option String) (content ed : JsonVal)
    (items : List JsonVal)
    (hed : errorDataOf content = .ok ed)
    (herrs : pyGet ed "errors" .null = .ok (.arr items))
    (hne : items ≠ [])
    (hitems : ∀ it ∈ items, ∃ (fs : List (String × JsonVal)) (s : String),
      it = .obj fs ∧ objGetD fs "message" .null = .str s) :
    handle_admin_error account content =
      (Event.logJsonDump bankingErrorTitle ed ::
        (setTrace account (.str (adminLeadInMsg ++ "<br><ul><li>" ++
            String.intercalate "</li><li>" (items.map fmtErrLine) ++ "</li></ul>")) ++
          [Event.throwEv bankingErrorTitle (.str (adminLeadInMsg ++ "<br><ul><li>" ++
            String.intercalate "</li><li>" (items.map fmtErrLine) ++ "</li></ul>"))]),
       .error (.thrown bankingErrorTitle (.str (adminLeadInMsg ++ "<br><ul><li>" ++
         String.intercalate "</li><li>" (items.map fmtErrLine) ++ "</li></ul>"))))
    ∧ (items.map fmtErrLine).length = items.length := by
  have htr : truthy (.arr items) = true := by
    cases items with
    | nil => exact absurd rfl hne
    | cons a as => rfl
  constructor
  · rw [handle_admin_error, hed]
    simp only [liftExc_ok, mSeq_ok, emit_def, List.nil_append, herrs, htr, if_true,
      pyIter, renderList_eq items hitems, set_in_account_eq, mThrow]
    simp [mSeq]
  · exact items.length_map fmtErrLine

/-- Claim C7, witness: two error items with locations `A`, `B` and
messages `m1`, `m2` produce the lead-in plus the HTML list containing
`A - m1` then `B - m2`, in that order. -/
theorem claim7_multi_error_witness :
    handle_admin_error (some "ACC")
        (.obj [("error", .obj [("errors", .arr
          [.obj [("location", .str "A"), ("message", .str "m1")],
           .obj [("location", .str "B"), ("message", .str "m2")]])])]) =
      ([.logJsonDump bankingErrorTitle (.obj [("errors", .arr
          [.obj [("location", .str "A"), ("message", .str "m1")],
           .obj [("location", .str "B"), ("message", .str "m2")]])]),
        .dbSetValue "Bank Account" "ACC" "error_message" (.str (adminLeadInMsg ++
          "<br><ul><li>" ++ "A - m1" ++ "</li><li>" ++ "B - m2" ++ "</li></ul>")),
        .dbCommit,
        .throwEv bankingErrorTitle (.str (adminLeadInMsg ++
          "<br><ul><li>" ++ "A - m1" ++ "</li><li>" ++ "B - m2" ++ "</li></ul>"))],
       .error (.thrown bankingErrorTitle (.str (adminLeadInMsg ++
         "<br><ul><li>" ++ "A - m1" ++ "</li><li>" ++ "B - m2" ++ "</li></ul>")))) := by
  have h := (claim7_multi_error (some "ACC")
    (.obj [("error", .obj [("errors", .arr
      [.obj [("location", .str "A"), ("message", .str "m1")],
       .obj [("location", .str "B"), ("message", .str "m2")]])])])
    (.obj [("errors", .arr
      [.obj [("location", .str "A"), ("message", .str "m1")],
       .obj [("location", .str "B"), ("message", .str "m2")]])])
    [.obj [("location", .str "A"), ("message", .str "m1")],
     .obj [("location", .str "B"), ("message", .str "m2")]]
    rfl rfl (by intro h; exact List.noConfusion h)
    (by
      intro it hit
      simp only [List.mem_cons, List.not_mem_nil, or_false] at hit
      rcases hit with h | h
      · exact ⟨[("location", .str "A"), ("message", .str "m1")], "m1", by rw [h], rfl⟩
      · exact ⟨[("location", .str "B"), ("message", .str "m2")], "m2", by rw [h], rfl⟩)).1
  exact h

/-- When `error_data` is an object with a falsy `errors` and a truthy
`message`, the admin handler logs the error data, persists and raises
the augmented single message. -/
theorem admin_single_fire (account : Option String) (content : JsonVal)
    (eds : List (String × JsonVal)) (mv : JsonVal)
    (hed : errorDataOf content = .ok (.obj eds))
    (herr : truthy (objGetD eds "errors" .null) = false)
    (hmt : truthy (objGetD eds "message" .null) = true)
    (hgm : get_msg (.obj eds) = .ok mv) :
    handle_admin_error account content =
      (Event.logJsonDump bankingErrorTitle (.obj eds) ::
        (setTrace account mv ++ [Event.throwEv bankingErrorTitle mv]),
       .error (.thrown bankingErrorTitle mv)) := by
  rw [handle_admin_error, hed]
  simp only [liftExc_ok, mSeq_ok, emit_def, List.nil_append, pyGet, herr, hmt, hgm,
    Bool.false_eq_true, if_false, if_true, set_in_account_eq, mThrow]
  simp [mSeq]

/-- Claim C4, counterexample to the claim as stated: on a 401 response
with account `"ACC"` the persisting write to the account record (trace
position 1) happens strictly BEFORE the raise (trace position 3), not
after it as the claimed order log-raise-persist requires. -/
theorem claim4_order_counterexample :
    handle_error (.httpError (some ⟨401, [], some (.obj []), "raw"⟩)) (some "ACC") =
      ([.logError bankingErrorTitle "raw",
        .dbSetValue "Bank Account" "ACC" "error_message" (.str authInvalidCredsMsg),
        .dbCommit,
        .throwEv bankingErrorTitle (.str authInvalidCredsMsg)],
       .error (.thrown bankingErrorTitle (.str authInvalidCredsMsg)))
    ∧ (handle_error (.httpError (some ⟨401, [], some (.obj []), "raw"⟩)) (some "ACC")).1[1]? =
        some (.dbSetValue "Bank Account" "ACC" "error_message" (.str authInvalidCredsMsg))
    ∧ (handle_error (.httpError (some ⟨401, [], some (.obj []), "raw"⟩)) (some "ACC")).1[3]? =
        some (.throwEv bankingErrorTitle (.str authInvalidCredsMsg)) := by
  exact ⟨rfl, rfl, rfl⟩

/-- Claim C4 (amended): for every recognized error kind the diagnostic
log entry comes first, then the message is persisted to the account
record, and the raise is the LAST side effect — except for the non-HTTP
passthrough, which persists first, then logs the stack trace, then
re-raises.  In particular every terminal step logs before raising. -/
theorem claim4_ordering :
    (∀ (tag a : String), ¬ a = "" →
       handle_error (.other tag) (some a) =
         ([.dbSetValue "Bank Account" a "error_message" (.str genericRetryMsg), .dbCommit,
           .logTraceback bankingErrorTitle, .reraiseEv],
          .error (.reraised (.other tag))))
    ∧ (∀ (r : Response) (a : String), ¬ a = "" → r.status_code = 401 →
       handle_error (.httpError (some r)) (some a) =
         ([.logError bankingErrorTitle r.content,
           .dbSetValue "Bank Account" a "error_message" (.str authInvalidCredsMsg), .dbCommit,
           .throwEv bankingErrorTitle (.str authInvalidCredsMsg)],
          .error (.thrown bankingErrorTitle (.str authInvalidCredsMsg))))
    ∧ (∀ (r : Response) (a : String) (bs : List (String × JsonVal)), ¬ a = "" →
       r.status_code = 403 → r.jsonBody = some (.obj bs) →
       handle_error (.httpError (some r)) (some a) =
         ([.logError bankingErrorTitle r.content,
           .dbSetValue "Bank Account" a "error_message" (authzMessageOf bs), .dbCommit,
           .throwEv bankingErrorTitle (authzMessageOf bs)],
          .error (.thrown bankingErrorTitle (authzMessageOf bs))))
    ∧ (∀ (r : Response) (a : String), ¬ a = "" →
       ¬ r.status_code = 401 → ¬ r.status_code = 403 →
       strContains (headerContentType r) "application/json" = false →
       handle_error (.httpError (some r)) (some a) =
         ([.logError bankingErrorTitle r.content,
           .dbSetValue "Bank Account" a "error_message" (.str genericRetryMsg), .dbCommit,
           .throwEv bankingErrorTitle (.str genericRetryMsg)],
          .error (.thrown bankingErrorTitle (.str genericRetryMsg))))
    ∧ (∀ (r : Response) (a : String) (bs : List (String × JsonVal)), ¬ a = "" →
       ¬ r.status_code = 401 → ¬ r.status_code = 403 →
       strContains (headerContentType r) "application/json" = true →
       r.jsonBody = some (.obj bs) →
       truthy (objGetD bs "message" (.obj [])) = false →
       objHasKey bs "exc_type" = true →
       handle_error (.httpError (some r)) (some a) =
         ([.logError bankingErrorTitle r.content,
           .dbSetValue "Bank Account" a "error_message" (serverMessageOf bs), .dbCommit,
           .throwEv bankingErrorTitle (serverMessageOf bs)],
          .error (.thrown bankingErrorTitle (serverMessageOf bs))))
    ∧ (∀ (a : String) (content : JsonVal) (eds : List (String × JsonVal)) (mv : JsonVal),
       ¬ a = "" →
       errorDataOf content = .ok (.obj eds) →
       truthy (objGetD eds "errors" .null) = false →
       truthy (objGetD eds "message" .null) = true →
       get_msg (.obj eds) = .ok mv →
       handle_admin_error (some a) content =
         ([.logJsonDump bankingErrorTitle (.obj eds),
           .dbSetValue "Bank Account" a "error_message" mv, .dbCommit,
           .throwEv bankingErrorTitle mv],
          .error (.thrown bankingErrorTitle mv))) := by
  have hset : ∀ (a : String) (v : JsonVal), ¬ a = "" →
      setTrace (some a) v = [.dbSetValue "Bank Account" a "error_message" v, .dbCommit] := by
    intro a v ha
    simp [setTrace, ha]
  refine ⟨?_, ?_, ?_, ?_, ?_, ?_⟩
  · intro tag a ha
    rw [other_exc_trace tag (some a), hset a _ ha]
    rfl
  · intro r a ha hst
    rw [handle_error, auth_fire (some a) r hst, hset a _ ha]
    simp [mSeq]
  · intro r a bs ha hst hb
    have h401 : ¬ r.status_code = 401 := by rw [hst]; decide
    rw [handle_error, auth_skip (some a) r h401, authz_fire (some a) r bs hst hb,
      hset a _ ha]
    simp [mSeq, mPure]
  · intro r a ha h1 h2 hct
    rw [handle_error, auth_skip (some a) r h1, authz_skip (some a) r h2,
      txt_html_fire (some a) r hct, hset a _ ha]
    simp [mSeq, mPure]
  · intro r a bs ha h1 h2 hct hb hmsg hexc
    rw [handle_error, auth_skip (some a) r h1, authz_skip (some a) r h2,
      txt_html_skip (some a) r hct]
    simp only [respJsonOpt, respJson, hb, mPure_def, mSeq_ok, pyGet, liftExc_ok,
      List.nil_append]
    rw [server_fire (some a) _ r bs hb hmsg hexc, hset a _ ha]
    simp [mSeq]
  · intro a content eds mv ha hed herr hmt hgm
    rw [admin_single_fire (some a) content eds mv hed herr hmt hgm, hset a _ ha]
    rfl

/-- Claim C4, witness: the order of side effects at concrete inputs of
each kind — a non-HTTP failure persists, logs, then re-raises; a 401
response, a missing-Content-Type response and a vendor single-error
payload each log, persist, then raise. -/
theorem claim4_ordering_witness :
    handle_error (.other "Timeout") (some "ACC") =
      ([.dbSetValue "Bank Account" "ACC" "error_message" (.str genericRetryMsg), .dbCommit,
        .logTraceback bankingErrorTitle, .reraiseEv],
       .error (.reraised (.other "Timeout")))
    ∧ handle_error (.httpError (some ⟨401, [], some (.obj []), "r1"⟩)) (some "ACC") =
      ([.logError bankingErrorTitle "r1",
        .dbSetValue "Bank Account" "ACC" "error_message" (.str authInvalidCredsMsg), .dbCommit,
        .throwEv bankingErrorTitle (.str authInvalidCredsMsg)],
       .error (.thrown bankingErrorTitle (.str authInvalidCredsMsg)))
    ∧ handle_admin_error (some "ACC") (.obj [("error", .obj [("message", .str "bad")])]) =
      ([.logJsonDump bankingErrorTitle (.obj [("message", .str "bad")]),
        .dbSetValue "Bank Account" "ACC" "error_message" (.str "bad"), .dbCommit,
        .throwEv bankingErrorTitle (.str "bad")],
       .error (.thrown bankingErrorTitle (.str "bad"))) := by
  refine ⟨?_, ?_, ?_⟩
  · exact claim4_ordering.1 "Timeout" "ACC" (by decide)
  · exact claim4_ordering.2.1 ⟨401, [], some (.obj []), "r1"⟩ "ACC" (by decide) rfl
  · exact claim4_ordering.2.2.2.2.2 "ACC" (.obj [("error", .obj [("message", .str "bad")])])
      [("message", .str "bad")] (.str "bad") (by decide) rfl rfl rfl rfl

/-- Claim C1, counterexample to the claim as stated: on a 500 response
with JSON Content-Type and body `message: null` (no `exc_type`), no
classification step matches — no `BankingError` is raised and nothing
is re-raised — yet the invocation does NOT complete and return
normally: it escapes with an uncaught `AttributeError` from the lookup
on the null `message`. -/
theorem claim1_short_circuit_counterexample :
    handle_error (.httpError (some ⟨500, [("Content-Type", "application/json")],
        some (.obj [("message", .null)]), "raw"⟩)) none =
      ([], .error (.pyError "AttributeError"))
    ∧ (handle_error (.httpError (some ⟨500, [("Content-Type", "application/json")],
        some (.obj [("message", .null)]), "raw"⟩)) none).1.filter isRaiseEv = []
    ∧ (handle_error (.httpError (some ⟨500, [("Content-Type", "application/json")],
        some (.obj [("message", .null)]), "raw"⟩)) none).2 ≠ .ok () := by
  refine ⟨rfl, rfl, ?_⟩
  intro h
  exact Except.noConfusion h

/-- Claim C1 (amended): for every invocation of the classifier, at most
one `BankingError` is raised; once any step raises (a `BankingError` or
the re-raised original failure), that raise is the last side effect and
no later step runs; and when the invocation completes normally no raise
occurred at all.  (When no step matches, the invocation either returns
normally or — on an unexpectedly shaped payload — escapes with an
uncaught Python-level error, again without raising any
`BankingError`.) -/
theorem claim1_single_raise (exc : Exc) (account : Option String) :
    ((handle_error exc account).1.filter isThrowEv).length ≤ 1
    ∧ (∀ (t : String) (m : JsonVal),
        (handle_error exc account).2 = .error (.thrown t m) →
        ∃ pre, (handle_error exc account).1 = pre ++ [Event.throwEv t m] ∧
          pre.filter isRaiseEv = [])
    ∧ (∀ e : Exc, (handle_error exc account).2 = .error (.reraised e) →
        ∃ pre, (handle_error exc account).1 = pre ++ [Event.reraiseEv] ∧
          pre.filter isRaiseEv = [])
    ∧ ((handle_error exc account).2 = .ok () →
        (handle_error exc account).1.filter isRaiseEv = []) := by
  have hwf := wf_handle_error exc account
  rw [Wf] at hwf
  refine ⟨?_, ?_, ?_, ?_⟩
  · cases hr : (handle_error exc account).2 with
    | ok a =>
        rw [hr] at hwf
        rw [filter_throw_nil _ hwf]
        decide
    | error h =>
        rw [hr] at hwf
        cases h with
        | thrown t m =>
            obtain ⟨pre, hpre, hrf⟩ := hwf
            rw [hpre, List.filter_append, filter_throw_nil _ hrf]
            simp [isThrowEv]
        | reraised e =>
            obtain ⟨pre, hpre, hrf⟩ := hwf
            rw [hpre, List.filter_append, filter_throw_nil _ hrf]
            simp [isThrowEv]
        | pyError s =>
            rw [filter_throw_nil _ hwf]
            decide
  · intro t m hr
    rw [hr] at hwf
    exact hwf
  · intro e hr
    rw [hr] at hwf
    exact hwf
  · intro hr
    rw [hr] at hwf
    exact hwf

/-- Claim C1, witness: on a concrete 401 failure the invocation raises
exactly one `BankingError`, and the raise is the last event of the
trace, everything before it raise-free. -/
theorem claim1_single_raise_witness :
    ∃ pre,
      (handle_error (.httpError (some ⟨401, [], some (.obj []), "w"⟩)) none).1 =
        pre ++ [Event.throwEv bankingErrorTitle (.str authInvalidCredsMsg)] ∧
      pre.filter isRaiseEv = [] :=
  (claim1_single_raise (.httpError (some ⟨401, [], some (.obj []), "w"⟩)) none).2.1
    bankingErrorTitle (.str authInvalidCredsMsg) rfl

end BankingVerify
